import Mathlib

/-!
# Verification of the free-generalist agent workflow core

Shallow embedding of the plan → execute → process → reflect → evaluate loop of
`src/generalist/agents/workflows/workflow_base.py` and of its specializations
(`workflow_coder.py`, `workflow_web_search.py`), of the capability registry of
`src/generalist/tools/__init__.py`, and of the completion judge of
`src/generalist/tools/summarisers.py`.

External collaborators (the LLM oracle, the judge LLM, the filesystem used for
tempfile spillover) are modelled as explicit inputs: each oracle is a queue of
responses consumed one per call, and the tempfile store is an explicit
association list of (file name, content) pairs.  Prompt text construction is
out of scope of the specification; prompts are modelled as a fixed rendering
(concatenation of the same fields the source interpolates) that preserves the
retry-suffix relation the source uses on the second tool-selection attempt.
-/

/-! ## Capability registry (src/generalist/tools/__init__.py) -/

/-- `ToolOutputType(str, Enum)` with members `STRING = "string"` and
`FILE = "file"`.  The specification calls the STRING kind "TEXT". -/
inductive ToolOutputType where
  | STRING
  | FILE
deriving DecidableEq, Repr

/-- Names of the coding tools.  `FunctionTool.from_defaults(fn=f)` names the
tool after the wrapped function, so the keys of `MAPPING` are the imported
function names `do_table_eda`, `write_code`, `execute_code`, `task_completed`. -/
def MAPPING : List (String × ToolOutputType) :=
  [("do_table_eda", ToolOutputType.STRING),
   ("write_code", ToolOutputType.STRING),
   ("execute_code", ToolOutputType.STRING),
   ("task_completed", ToolOutputType.STRING)]

/-- `get_tool_type` is `MAPPING[tool_name]`: a plain dict lookup.  A name that
is not a key raises `KeyError`, modelled by `none`. -/
def get_tool_type (tool_name : String) : Option ToolOutputType :=
  MAPPING.lookup tool_name

/-- The name of the web-search tool (`FunctionTool` over
`generalist.tools.web_search.web_search`), the single tool of
`DeepWebSearchWorkflow`. -/
def WEB_SEARCH_TOOL_NAME : String := "web_search"

/-! ## Data model -/

/-- Modelled from the spec: `Message` of `generalist/tools/data_model.py`
(the module itself is not under `src/`; §3 of the spec defines the record as
`{provided_by, link, content, metadata}`, matching the keyword arguments used
at every construction site in `workflow_base.py`). -/
structure Message where
  provided_by : String
  link : String
  content : String
  metadata : List (String × String)
deriving DecidableEq, Repr

/-- Modelled from the spec: `ShortAnswer` of `generalist/tools/data_model.py`
(not under `src/`); fields follow the construction site in
`construct_short_answer` of `summarisers.py`. -/
structure ShortAnswer where
  answered : Bool
  answer : String
  clarification : String
deriving DecidableEq, Repr

/-- Modelled from the spec: `AgentRunSummary` of
`generalist/tools/data_model.py` (not under `src/`); fields follow the
construction site in `construct_task_completion` of `summarisers.py`. -/
structure AgentRunSummary where
  completed : Bool
  summary : String
deriving DecidableEq, Repr

/-- `ExecuteToolOutput` dataclass of `workflow_base.py`. -/
structure ExecuteToolOutput where
  name : String
  type : ToolOutputType
  output : String
deriving DecidableEq, Repr

/-- `AgentState` TypedDict of `workflow_base.py`.  `tool_call_result` is not
set by `__init__`; the absent key is modelled as `none` (the graph only reads
it after `execute_tool` has written it). -/
structure AgentState where
  task : String
  plan : Option String
  step : Nat
  tool_call_result : Option ExecuteToolOutput
  reflection : Option String
  context : List Message
  answers : Option ShortAnswer
deriving DecidableEq, Repr

/-- `AgentWorkflow.__init__`:
`AgentState(step=0, task=task, context=context, answers=None, plan=None, reflection=None)`. -/
def init_state (task : String) (context : List Message) : AgentState :=
  { task := task, plan := none, step := 0, tool_call_result := none,
    reflection := none, context := context, answers := none }

/-! ## Spillover store (tempfile.NamedTemporaryFile) -/

/-- Modelled from the spec: the Content Spillover Store (§2, §6), realized in
the source by `tempfile.NamedTemporaryFile(delete=False, ...)` writes.  The
store is the set of files written so far; a write creates a fresh name. -/
structure SpilloverStore where
  files : List (String × String)
deriving DecidableEq, Repr

/-- Fresh temp-file name for the next write.  `tempfile` guarantees a fresh
name per call; this model makes the name a function of how many files exist. -/
def freshName (st : SpilloverStore) : String :=
  "/tmp/tmp" ++ toString st.files.length

/-- `write(content) -> reference` of the Spillover Store interface (§6). -/
def SpilloverStore.write (st : SpilloverStore) (content : String) :
    String × SpilloverStore :=
  (freshName st, ⟨(freshName st, content) :: st.files⟩)

/-- `read(reference) -> content`; `none` models a missing file
(`os.path.exists` false). -/
def SpilloverStore.read (st : SpilloverStore) (name : String) : Option String :=
  st.files.lookup name

/-! ## Workflow errors

Uncaught Python exceptions that unwind a run. -/

inductive WorkflowError where
  /-- The oracle raised / produced no response at all. -/
  | oracleUnreachable
  /-- `ValueError("Expected at least one tool call...")` escaping the retry in
  `execute_tool`. -/
  | noToolCalled
  /-- Any other `ValueError` re-raised by `execute_tool`. -/
  | valueError
  /-- `KeyError` from a dict lookup (`MAPPING[tool_name]`,
  `state["last_output"]`). -/
  | keyError (key : String)
  /-- Attribute access on `None` (`state["tool_call_result"].output` with the
  value unset). -/
  | attributeError
  /-- `json.JSONDecodeError` from `json.loads` in `construct_task_completion`
  (folded together with the `AttributeError` raised by `data.get` when the
  decoded value is not an object). -/
  | jsonDecodeError
  /-- Artifact of the fuel-indexed loop model; the graph itself has no fuel,
  and every theorem below supplies enough fuel that this is never the
  outcome of a run it talks about. -/
  | fuelExhausted
deriving DecidableEq, Repr

/-! ## Judge response parsing (construct_task_completion, summarisers.py) -/

/-- JSON values, restricted to the flat shapes the judge contract involves
(strings, booleans, null, non-negative integers; no escapes inside strings,
no nesting).  Any other input is a parse failure. -/
inductive JsonValue where
  | str (s : String)
  | boolean (b : Bool)
  | num (n : Nat)
  | null
deriving DecidableEq, Repr

/-- Whitespace skipping for the JSON reader. -/
def skipWs : List Char → List Char
  | [] => []
  | c :: cs => if c = ' ' ∨ c = '\n' ∨ c = '\t' ∨ c = '\r' then skipWs cs else c :: cs

/-- Reads the body of a JSON string after the opening quote; returns the
content characters and the remainder after the closing quote. -/
def takeJString : List Char → Option (List Char × List Char)
  | [] => none
  | c :: cs =>
    if c = '"' then some ([], cs)
    else
      match takeJString cs with
      | some (s, r) => some (c :: s, r)
      | none => none

/-- Reads a maximal digit run. -/
def takeDigits : List Char → List Char × List Char
  | [] => ([], [])
  | c :: cs =>
    if c.isDigit then
      let (d, r) := takeDigits cs
      (c :: d, r)
    else ([], c :: cs)

/-- Digit run to number. -/
def digitsToNat (ds : List Char) : Nat :=
  ds.foldl (fun n c => n * 10 + (c.toNat - '0'.toNat)) 0

/-- Reads one JSON value. -/
def parseJValue (cs : List Char) : Option (JsonValue × List Char) :=
  match skipWs cs with
  | '"' :: rest =>
    match takeJString rest with
    | some (s, r) => some (JsonValue.str (String.mk s), r)
    | none => none
  | 't' :: 'r' :: 'u' :: 'e' :: rest => some (JsonValue.boolean true, rest)
  | 'f' :: 'a' :: 'l' :: 's' :: 'e' :: rest => some (JsonValue.boolean false, rest)
  | 'n' :: 'u' :: 'l' :: 'l' :: rest => some (JsonValue.null, rest)
  | c :: rest =>
    if c.isDigit then
      let (d, r) := takeDigits rest
      some (JsonValue.num (digitsToNat (c :: d)), r)
    else none
  | [] => none

/-- Reads the members of a JSON object after the opening brace (fuel-indexed;
each member consumes at least one character, so `input length + 1` fuel
suffices). -/
def parseMembers : Nat → List Char → Option (List (String × JsonValue) × List Char)
  | 0, _ => none
  | fuel + 1, cs =>
    match skipWs cs with
    | '"' :: rest =>
      match takeJString rest with
      | none => none
      | some (k, r1) =>
        match skipWs r1 with
        | ':' :: r2 =>
          match parseJValue r2 with
          | none => none
          | some (v, r3) =>
            match skipWs r3 with
            | ',' :: r4 =>
              (match parseMembers fuel r4 with
               | some (ms, r5) => some ((String.mk k, v) :: ms, r5)
               | none => none)
            | '}' :: r4 => some ([(String.mk k, v)], r4)
            | _ => none
        | _ => none
    | _ => none

/-- Model of Python `json.loads` restricted to flat objects (see `JsonValue`).
`none` covers both a `JSONDecodeError` and a decoded non-object top-level
value, on which the subsequent `data.get(...)` raises `AttributeError`;
both are hard errors in the source, which is all the claims distinguish.
Duplicate keys are not modelled (Python keeps the last, this reader the
first); the judge contract never produces them. -/
def jsonLoads (s : String) : Option (List (String × JsonValue)) :=
  match skipWs s.data with
  | '{' :: rest =>
    match skipWs rest with
    | '}' :: r2 => if skipWs r2 = [] then some [] else none
    | _ =>
      match parseMembers (rest.length + 1) rest with
      | some (ms, r2) => if skipWs r2 = [] then some ms else none
      | none => none
  | _ => none

/-- Is `pat` a prefix of the input? -/
def isPrefixList : List Char → List Char → Bool
  | [], _ => true
  | _ :: _, [] => false
  | p :: ps, c :: cs => p = c && isPrefixList ps cs

/-- First occurrence of the pattern: returns the characters before it and the
characters after it. -/
def splitFirst (pat : List Char) : List Char → Option (List Char × List Char)
  | [] => if pat.isEmpty then some ([], []) else none
  | c :: cs =>
    if isPrefixList pat (c :: cs) then some ([], (c :: cs).drop pat.length)
    else
      match splitFirst pat cs with
      | some (before, after) => some (c :: before, after)
      | none => none

/-- Python `str.strip()`: drop leading and trailing whitespace. -/
def pyStrip (s : String) : String :=
  String.mk (((s.data.dropWhile Char.isWhitespace).reverse.dropWhile
    Char.isWhitespace).reverse)

/-- `response_text.strip()` followed by
`re.search(r"```json\n(.*?)```", response_text, re.DOTALL)` and the
`len(code_string) > 1` replacement, as in `construct_task_completion`:
the group of the first non-greedy match is the text between the first
occurrence of the opening fence and the next occurrence of three backticks. -/
def extractResponseText (raw : String) : String :=
  let stripped := pyStrip raw
  let codeString :=
    match splitFirst ("```json\n".data) stripped.data with
    | some (_, afterOpen) =>
      (match splitFirst ("```".data) afterOpen with
       | some (content, _) => String.mk content
       | none => "")
    | none => ""
  if 1 < codeString.length then codeString else stripped

/-- Python `str()` rendering of a decoded JSON value; used only when the judge
puts a non-string under `"summary"`, where the source stores the raw value. -/
def pyStr : JsonValue → String
  | JsonValue.str s => s
  | JsonValue.boolean true => "True"
  | JsonValue.boolean false => "False"
  | JsonValue.num n => toString n
  | JsonValue.null => "None"

/-- `construct_task_completion` of `summarisers.py`, parameterized by the judge
LLM's raw response text (the prompt construction and the `llm.complete` call
are external).  `completed` is
`True if data.get("completed") in ["True", "true", "yes", "1"] else False`;
`summary` is `data.get("summary", "did-not-parse")`. -/
def construct_task_completion (response_text : String) :
    Except WorkflowError AgentRunSummary :=
  match jsonLoads (extractResponseText response_text) with
  | none => Except.error WorkflowError.jsonDecodeError
  | some data =>
    Except.ok
      { completed :=
          match data.lookup "completed" with
          | some (JsonValue.str s) => s == "True" || s == "true" || s == "yes" || s == "1"
          | _ => false
        summary :=
          match data.lookup "summary" with
          | some v => pyStr v
          | none => "did-not-parse" }

/-! ## Run state

`RunState` packages the mutable `AgentState` with the per-run configuration
(`agent_capability`) and the environment: one response queue per oracle call
site, the spillover store, and a log of the prompts issued to the
tool-selection oracle (used to state the retry/strengthening policy). -/

/-- One outcome of `self.llm.predict_and_call(user_msg=prompt, tools=self.tools)`. -/
inductive SelResult where
  /-- The oracle called the tool `response.sources[0].tool_name` and produced
  `response.response`. -/
  | ok (tool_name : String) (output : String)
  /-- `ValueError("Expected at least one tool call, got 0 tool calls.")`. -/
  | noToolCall
  /-- Any other `ValueError`. -/
  | otherError
deriving DecidableEq, Repr

/-- The run: agent state, configuration, oracle response queues, spillover
store, and the log of tool-selection prompts issued. -/
structure RunState where
  agent : AgentState
  capability : String
  planQ : List (Except WorkflowError String)
  selQ : List SelResult
  reflQ : List (Except WorkflowError String)
  judgeQ : List String
  store : SpilloverStore
  prompts : List String

/-- Rendering of a `Message` as Python's `str()` would inside an f-string;
prompt text details are out of scope of the spec (§1), so the rendering is
abbreviated but keeps the interpolated fields. -/
def renderMessage (m : Message) : String :=
  "Message(provided_by=" ++ m.provided_by ++ ", link=" ++ m.link ++
    ", content=" ++ m.content ++ ")"

/-- Rendering of `state["context"]` inside an f-string. -/
def renderContext (ctx : List Message) : String :=
  "[" ++ String.intercalate ", " (ctx.map renderMessage) ++ "]"

/-- The prompt built by `AgentWorkflow.execute_tool` (whitespace abbreviated;
the fields interpolated are the ones of the source f-string). -/
def execute_tool_prompt (cap : String) (s : AgentState) : String :=
  "Role: " ++ cap ++ "\nTask: " ++ s.task ++
    "\nContext from previous steps:\n" ++ renderContext s.context ++
    "\nPlan: " ++ s.plan.getD "None" ++
    "\nBased on the plan above, you MUST call exactly ONE of the available tools now." ++
    "\nChoose the most appropriate tool to make progress on the task."

/-- The strengthened-instruction suffix appended to the prompt for the single
retry in `execute_tool` (verbatim from the source). -/
def RETRY_SUFFIX : String :=
  "\n\nIMPORTANT: You MUST call one of the available tools. Review the tools and select the most appropriate one."

/-- `MAX_STEPS = 5` at module level of `workflow_base.py`.  This is the
constant `AgentWorkflow.evaluate_completion` reads — including when that
method is inherited by a subclass defined in another module. -/
def MAX_STEPS : Nat := 5

namespace workflow_coder

/-- `MAX_STEPS = 4` at module level of `workflow_coder.py`.  No code in
`workflow_coder.py` references it: `CodeWriterExecutorWorkflow` inherits
`evaluate_completion`, whose `MAX_STEPS` resolves in `workflow_base`'s module
namespace (to 5). -/
def MAX_STEPS : Nat := 4

end workflow_coder

namespace workflow_web_search

/-- `MAX_STEPS = 1` at module level of `workflow_web_search.py`; this one is
referenced, by the overriding `DeepWebSearchWorkflow.evaluate_completion`. -/
def MAX_STEPS : Nat := 1

end workflow_web_search

/-- Graph-edge sequencing: run the continuation unless the previous node
raised (in which case the exception unwinds the run). -/
def stageThen (x : RunState × Option WorkflowError)
    (k : RunState → RunState × Except WorkflowError Bool) :
    RunState × Except WorkflowError Bool :=
  match x with
  | (r1, some e) => (r1, Except.error e)
  | (r1, none) => k r1

/-- Loop continuation: stop on an exception or on `"end"`, otherwise keep
looping. -/
def loopCont (x : RunState × Except WorkflowError Bool)
    (k : RunState → RunState × Except WorkflowError Unit) :
    RunState × Except WorkflowError Unit :=
  match x with
  | (r1, Except.error e) => (r1, Except.error e)
  | (r1, Except.ok true) => (r1, Except.ok ())
  | (r1, Except.ok false) => k r1

namespace AgentWorkflow

/-- `AgentWorkflow.plan_action`: one `self.llm.complete(prompt)` call; on
success `state["plan"] = response.text.strip()`.  An oracle exception
propagates uncaught (no try/except, no retry): the state is unchanged and the
error is surfaced as-is. -/
def plan_action (r : RunState) : RunState × Option WorkflowError :=
  match r.planQ with
  | [] => (r, some WorkflowError.oracleUnreachable)
  | Except.error e :: rest => ({ r with planQ := rest }, some e)
  | Except.ok t :: rest =>
    ({ r with
        planQ := rest
        agent := { r.agent with plan := some t.trim } }, none)

/-- `AgentWorkflow.execute_tool`: one `predict_and_call`; on
`ValueError("Expected at least one tool call...")` exactly one retry with the
prompt strengthened by `RETRY_SUFFIX`; a second such failure (or any other
`ValueError`) propagates.  On a tool call, `get_tool_type(tool_name)` is
looked up (a `KeyError` there propagates before anything is assigned), then
`state["tool_call_result"]` is set and `state["step"] += 1`. -/
def execute_tool (r : RunState) : RunState × Option WorkflowError :=
  let p := execute_tool_prompt r.capability r.agent
  match r.selQ with
  | [] => (r, some WorkflowError.oracleUnreachable)
  | SelResult.ok tool_name output :: rest =>
    let r1 := { r with selQ := rest, prompts := r.prompts ++ [p] }
    (match get_tool_type tool_name with
     | none => (r1, some (WorkflowError.keyError tool_name))
     | some ty =>
       ({ r1 with agent := { r1.agent with
            tool_call_result := some ⟨tool_name, ty, output⟩,
            step := r1.agent.step + 1 } }, none))
  | SelResult.otherError :: rest =>
    ({ r with selQ := rest, prompts := r.prompts ++ [p] },
     some WorkflowError.valueError)
  | SelResult.noToolCall :: rest =>
    match rest with
    | [] =>
      ({ r with selQ := [], prompts := r.prompts ++ [p, p ++ RETRY_SUFFIX] },
       some WorkflowError.oracleUnreachable)
    | SelResult.ok tool_name output :: rest2 =>
      let r1 := { r with selQ := rest2, prompts := r.prompts ++ [p, p ++ RETRY_SUFFIX] }
      (match get_tool_type tool_name with
       | none => (r1, some (WorkflowError.keyError tool_name))
       | some ty =>
         ({ r1 with agent := { r1.agent with
              tool_call_result := some ⟨tool_name, ty, output⟩,
              step := r1.agent.step + 1 } }, none))
    | SelResult.noToolCall :: rest2 =>
      ({ r with selQ := rest2, prompts := r.prompts ++ [p, p ++ RETRY_SUFFIX] },
       some WorkflowError.noToolCalled)
    | SelResult.otherError :: rest2 =>
      ({ r with selQ := rest2, prompts := r.prompts ++ [p, p ++ RETRY_SUFFIX] },
       some WorkflowError.valueError)

/-- `AgentWorkflow.process_tool_output`: `link = ""`,
`content = state["tool_call_result"].output`; if the kind is FILE the payload
is written to a fresh temp file, `link` becomes the file name and `content` a
pointer sentence; exactly one `Message` is appended to `state["context"]`.
`state["tool_call_result"]` being unset would raise (`AttributeError` on
`.output`); the graph always runs this node after `execute_tool`. -/
def process_tool_output (r : RunState) : RunState × Option WorkflowError :=
  match r.agent.tool_call_result with
  | none => (r, some WorkflowError.attributeError)
  | some res =>
    match res.type with
    | ToolOutputType.STRING =>
      ({ r with agent := { r.agent with
          context := r.agent.context ++
            [{ provided_by := res.name, link := "", content := res.output,
               metadata := [] }] } }, none)
    | ToolOutputType.FILE =>
      let written := r.store.write res.output
      ({ r with
         store := written.2,
         agent := { r.agent with
          context := r.agent.context ++
            [{ provided_by := res.name, link := written.1,
               content := "Output of " ++ res.name ++ " tool is stored in " ++
                 written.1 ++ ".",
               metadata := [] }] } }, none)

/-- `AgentWorkflow.reflect`: one `self.llm.complete(prompt)` call; on success
`state["reflection"] = response.text.strip()`; nothing else is written. -/
def reflect (r : RunState) : RunState × Option WorkflowError :=
  match r.reflQ with
  | [] => (r, some WorkflowError.oracleUnreachable)
  | Except.error e :: rest => ({ r with reflQ := rest }, some e)
  | Except.ok t :: rest =>
    ({ r with
        reflQ := rest
        agent := { r.agent with reflection := some t.trim } }, none)

/-- `AgentWorkflow.evaluate_completion`:
`decision = construct_task_completion(...)` (one judge-LLM call, whose raw
response text is the head of `judgeQ`; a parse error propagates), then `"end"`
iff `decision.completed` or `state["step"] >= MAX_STEPS` — the `MAX_STEPS` of
`workflow_base.py`, i.e. 5.  `true` models `"end"`, `false` `"continue"`. -/
def evaluate_completion (r : RunState) : RunState × Except WorkflowError Bool :=
  match r.judgeQ with
  | [] => (r, Except.error WorkflowError.oracleUnreachable)
  | resp :: rest =>
    let r1 := { r with judgeQ := rest }
    match construct_task_completion resp with
    | Except.error e => (r1, Except.error e)
    | Except.ok decision =>
      if decision.completed then (r1, Except.ok true)
      else if MAX_STEPS ≤ r.agent.step then (r1, Except.ok true)
      else (r1, Except.ok false)

/-- One pass through the graph `plan_action → execute_tool →
process_tool_output → reflect → evaluate_completion` of
`AgentWorkflow.build_compile`; an exception at any node unwinds. -/
def iterate (r : RunState) : RunState × Except WorkflowError Bool :=
  stageThen (plan_action r) fun r1 =>
  stageThen (execute_tool r1) fun r2 =>
  stageThen (process_tool_output r2) fun r3 =>
  stageThen (reflect r3) fun r4 =>
  evaluate_completion r4

/-- The compiled graph driven from `START` until `evaluate_completion` selects
`"end"` (`Except.ok ()`) or an exception unwinds the run.  `fuel` bounds the
recursion in the model only; each theorem supplies enough of it. -/
def runLoop : Nat → RunState → RunState × Except WorkflowError Unit
  | 0, r => (r, Except.error WorkflowError.fuelExhausted)
  | fuel + 1, r => loopCont (iterate r) (runLoop fuel)

end AgentWorkflow

namespace CodeWriterExecutorWorkflow

/-- The tool names of `CodeWriterExecutorWorkflow.tools`
(`eda_table_tool, write_code_tool, execute_code_tool`). -/
def tools : List String := ["do_table_eda", "write_code", "execute_code"]

/-- Body of `CodeWriterExecutorWorkflow.process_tool_output`, parameterized by
the value of the `"last_output"` key it reads.  `AgentState` (the graph's
state schema) has no `last_output` key and no node writes one —
`execute_tool` writes `tool_call_result` — so in every run the lookup raises
`KeyError` (the `none` branch) before anything else in the body executes. -/
def process_tool_output_body (lastOut : Option ExecuteToolOutput)
    (r : RunState) : RunState × Option WorkflowError :=
  match lastOut with
  | none => (r, some (WorkflowError.keyError "last_output"))
  | some res =>
    let link := res.output
    let content := res.output
    let fileCase :=
      match res.type with
      | ToolOutputType.FILE =>
        let written := r.store.write res.output
        (written.1,
         "Output of " ++ res.name ++ " for an intermediary task (task: " ++
           r.agent.task ++ ") is stored in " ++ written.1 ++ "." ++
           "EXECUTE THIS FILE IN THE NEXT STEP TO GET THE RESULT.",
         written.2)
      | ToolOutputType.STRING => (link, content, r.store)
    let content2 :=
      if res.name = "execute_code" then
        "Executed code for task: " ++ r.agent.task ++ ".\nOUTPUT:" ++ fileCase.2.1
      else fileCase.2.1
    ({ r with
        store := fileCase.2.2
        agent := { r.agent with
          context := r.agent.context ++
            [{ provided_by := res.name, link := fileCase.1, content := content2,
               metadata := [] }] } }, none)

/-- `CodeWriterExecutorWorkflow.process_tool_output` as executed: the
`state["last_output"]` lookup always raises `KeyError`. -/
def process_tool_output (r : RunState) : RunState × Option WorkflowError :=
  process_tool_output_body none r

/-- One pass through the coder variant's graph.  Only `process_tool_output` is
overridden; `plan_action`, `execute_tool`, `reflect` and `evaluate_completion`
(with `workflow_base.MAX_STEPS`) are inherited from `AgentWorkflow`. -/
def iterate (r : RunState) : RunState × Except WorkflowError Bool :=
  stageThen (AgentWorkflow.plan_action r) fun r1 =>
  stageThen (AgentWorkflow.execute_tool r1) fun r2 =>
  stageThen (process_tool_output r2) fun r3 =>
  stageThen (AgentWorkflow.reflect r3) fun r4 =>
  AgentWorkflow.evaluate_completion r4

/-- The coder variant's run loop. -/
def runLoop : Nat → RunState → RunState × Except WorkflowError Unit
  | 0, r => (r, Except.error WorkflowError.fuelExhausted)
  | fuel + 1, r => loopCont (iterate r) (runLoop fuel)

end CodeWriterExecutorWorkflow

namespace DeepWebSearchWorkflow

/-- The tool names of `DeepWebSearchWorkflow.tools` (`web_search_tool` only). -/
def tools : List String := [WEB_SEARCH_TOOL_NAME]

/-- Body of `DeepWebSearchWorkflow.process_tool_output`, parameterized like
the coder one by the value of the `"last_output"` key, which no node ever
writes: in every run the lookup raises `KeyError`.  (The override also never
`return state`; unreachable in practice because of the `KeyError`, and before
that because `web_search` is not a key of `MAPPING`, so `execute_tool` already
raises.) -/
def process_tool_output_body (lastOut : Option ExecuteToolOutput)
    (r : RunState) : RunState × Option WorkflowError :=
  match lastOut with
  | none => (r, some (WorkflowError.keyError "last_output"))
  | some res =>
    let fileCase :=
      match res.type with
      | ToolOutputType.FILE =>
        let written := r.store.write res.output
        (written.1,
         "Web search SUCCESSFUL for task: " ++ r.agent.task ++ ". " ++
           "The downloaded info is stored in " ++ written.1 ++ ". " ++
           "PROCEED TO UNSTRUCTURED TEXT PROCESSING!",
         written.2)
      | ToolOutputType.STRING => ("", res.output, r.store)
    ({ r with
        store := fileCase.2.2
        agent := { r.agent with
          context := r.agent.context ++
            [{ provided_by := res.name, link := fileCase.1,
               content := fileCase.2.1, metadata := [] }] } }, none)

/-- `DeepWebSearchWorkflow.process_tool_output` as executed. -/
def process_tool_output (r : RunState) : RunState × Option WorkflowError :=
  process_tool_output_body none r

/-- `DeepWebSearchWorkflow.evaluate_completion` (the override): `"end"` iff
`os.path.exists(state["context"][-1].link)` — modelled as the link resolving
in the spillover store — or `state["step"] >= MAX_STEPS` with
`workflow_web_search.MAX_STEPS = 1`.  Indexing `[-1]` on an empty context
raises `IndexError`. -/
def evaluate_completion (r : RunState) : RunState × Except WorkflowError Bool :=
  match r.agent.context.getLast? with
  | none => (r, Except.error (WorkflowError.keyError "context[-1]"))
  | some m =>
    if (r.store.read m.link).isSome then (r, Except.ok true)
    else if workflow_web_search.MAX_STEPS ≤ r.agent.step then (r, Except.ok true)
    else (r, Except.ok false)

/-- One pass through the web-search variant's graph (its own
`process_tool_output` and `evaluate_completion`; the rest inherited). -/
def iterate (r : RunState) : RunState × Except WorkflowError Bool :=
  stageThen (AgentWorkflow.plan_action r) fun r1 =>
  stageThen (AgentWorkflow.execute_tool r1) fun r2 =>
  stageThen (process_tool_output r2) fun r3 =>
  stageThen (AgentWorkflow.reflect r3) fun r4 =>
  evaluate_completion r4

/-- The web-search variant's run loop. -/
def runLoop : Nat → RunState → RunState × Except WorkflowError Unit
  | 0, r => (r, Except.error WorkflowError.fuelExhausted)
  | fuel + 1, r => loopCont (iterate r) (runLoop fuel)

end DeepWebSearchWorkflow

/-! ## Concrete runs

Concrete run states used by the closed theorems and by the witnesses of the
theorems with hypotheses.  `falseJudge` / `trueJudge` are judge-LLM response
texts whose parse yields `completed = false` / `completed = true`. -/

/-- A judge response that parses to `completed = false`. -/
def falseJudge : String := "\x7b\"completed\": \"false\", \"summary\": \"no\"\x7d"

/-- A judge response that parses to `completed = true`. -/
def trueJudge : String := "\x7b\"completed\": \"true\", \"summary\": \"done\"\x7d"

/-- A fully cooperative environment for a run of up to five iterations of the
base workflow: every oracle call succeeds, the selected tool is always
`write_code` (a STRING-kind key of `MAPPING`), and the judge always answers
`completed = false`. -/
def baseCoopRun : RunState :=
  { agent := init_state "t" [], capability := "cap",
    planQ := [Except.ok "p1", Except.ok "p2", Except.ok "p3", Except.ok "p4",
              Except.ok "p5"],
    selQ := [SelResult.ok "write_code" "o1", SelResult.ok "write_code" "o2",
             SelResult.ok "write_code" "o3", SelResult.ok "write_code" "o4",
             SelResult.ok "write_code" "o5"],
    reflQ := [Except.ok "r1", Except.ok "r2", Except.ok "r3", Except.ok "r4",
              Except.ok "r5"],
    judgeQ := [falseJudge, falseJudge, falseJudge, falseJudge, falseJudge],
    store := ⟨[]⟩, prompts := [] }

/-- A cooperative environment for a coder-variant run (plan ok, tool selection
ok with `write_code`): the run never gets past the first
`process_tool_output`. -/
def coderCoopRun : RunState :=
  { agent := init_state "t" [], capability := "cap",
    planQ := [Except.ok "p1", Except.ok "p2", Except.ok "p3", Except.ok "p4"],
    selQ := [SelResult.ok "write_code" "o1", SelResult.ok "write_code" "o2",
             SelResult.ok "write_code" "o3", SelResult.ok "write_code" "o4"],
    reflQ := [Except.ok "r1", Except.ok "r2", Except.ok "r3", Except.ok "r4"],
    judgeQ := [falseJudge, falseJudge, falseJudge, falseJudge],
    store := ⟨[]⟩, prompts := [] }

/-- A cooperative environment for a web-search-variant run: the oracle selects
the variant's only tool, `web_search`; the run never gets past the first
`execute_tool`. -/
def webCoopRun : RunState :=
  { agent := init_state "t" [], capability := "cap",
    planQ := [Except.ok "p1"],
    selQ := [SelResult.ok WEB_SEARCH_TOOL_NAME "o1"],
    reflQ := [Except.ok "r1"], judgeQ := [falseJudge],
    store := ⟨[]⟩, prompts := [] }

/-- A run state whose most recent tool call is a successful STRING-kind
(`TEXT`-kind in the spec's vocabulary) `write_code` invocation with payload
`"payload"`. -/
def stringResultRun : RunState :=
  { agent := { init_state "t" [] with
      tool_call_result := some ⟨"write_code", ToolOutputType.STRING, "payload"⟩,
      step := 1 },
    capability := "cap", planQ := [], selQ := [], reflQ := [], judgeQ := [],
    store := ⟨[]⟩, prompts := [] }

/-- A run state whose most recent tool call is a successful FILE-kind
invocation of a hypothetical `search` capability with payload `"x"`
(the scenario of spec §8: registry `{search → FILE}`). -/
def fileResultRun : RunState :=
  { agent := { init_state "t" [] with
      tool_call_result := some ⟨"search", ToolOutputType.FILE, "x"⟩,
      step := 1 },
    capability := "cap", planQ := [], selQ := [], reflQ := [], judgeQ := [],
    store := ⟨[]⟩, prompts := [] }

/-- A run state whose tool-selection oracle returns "no tool called" twice in
a row. -/
def doubleNoSelRun : RunState :=
  { agent := init_state "t" [], capability := "cap",
    planQ := [Except.ok "p1"],
    selQ := [SelResult.noToolCall, SelResult.noToolCall],
    reflQ := [Except.ok "r1"], judgeQ := [falseJudge],
    store := ⟨[]⟩, prompts := [] }

/-- A run state whose planning oracle is unreachable on the first call. -/
def planFailRun : RunState :=
  { agent := init_state "t" [], capability := "cap",
    planQ := [Except.error WorkflowError.oracleUnreachable],
    selQ := [SelResult.ok "write_code" "o1"],
    reflQ := [Except.ok "r1"], judgeQ := [falseJudge],
    store := ⟨[]⟩, prompts := [] }

/-- A cooperative single-iteration environment whose judge answers
`completed = true` on the first evaluation. -/
def judgeTrueRun : RunState :=
  { agent := init_state "t" [], capability := "cap",
    planQ := [Except.ok "p1"],
    selQ := [SelResult.ok "write_code" "o1"],
    reflQ := [Except.ok "r1"], judgeQ := [trueJudge],
    store := ⟨[]⟩, prompts := [] }

/-- A run state with a pending reflection response and a non-`None`
`answers` (progress summary) field. -/
def reflectDemoRun : RunState :=
  { agent := { init_state "t" [] with
      answers := some { answered := true, answer := "a", clarification := "c" } },
    capability := "cap", planQ := [], selQ := [],
    reflQ := [Except.ok "some reflection"], judgeQ := [falseJudge],
    store := ⟨[]⟩, prompts := [] }


/-! ## Proof layer: frame lemmas for the stages and the loop -/

@[simp] lemma stageThen_some (r1 : RunState) (e : WorkflowError)
    (k : RunState → RunState × Except WorkflowError Bool) :
    stageThen (r1, some e) k = (r1, Except.error e) := rfl

@[simp] lemma stageThen_none (r1 : RunState)
    (k : RunState → RunState × Except WorkflowError Bool) :
    stageThen (r1, none) k = k r1 := rfl

@[simp] lemma loopCont_error (r1 : RunState) (e : WorkflowError)
    (k : RunState → RunState × Except WorkflowError Unit) :
    loopCont (r1, Except.error e) k = (r1, Except.error e) := rfl

@[simp] lemma loopCont_true (r1 : RunState)
    (k : RunState → RunState × Except WorkflowError Unit) :
    loopCont (r1, Except.ok true) k = (r1, Except.ok ()) := rfl

@[simp] lemma loopCont_false (r1 : RunState)
    (k : RunState → RunState × Except WorkflowError Unit) :
    loopCont (r1, Except.ok false) k = k r1 := rfl

namespace AgentWorkflow

/-- `plan_action` never touches `step` or `context`. -/
lemma plan_action_frame {r r1 : RunState} {e1 : Option WorkflowError}
    (h : plan_action r = (r1, e1)) :
    r1.agent.step = r.agent.step ∧ r1.agent.context = r.agent.context := by
  rcases hq : r.planQ with _ | ⟨a, rest⟩
  · simp [plan_action, hq, Prod.ext_iff] at h
    simp [h.1.symm]
  · cases a <;>
    · simp [plan_action, hq, Prod.ext_iff] at h
      simp [h.1.symm]

/-- `execute_tool` never touches `context`; it increments `step` by exactly 1
on success and leaves the whole agent state unchanged on any failure. -/
lemma execute_tool_frame {r r1 : RunState} {e1 : Option WorkflowError}
    (h : execute_tool r = (r1, e1)) :
    r1.agent.context = r.agent.context ∧
    (e1 = none → r1.agent.step = r.agent.step + 1) ∧
    (e1 ≠ none → r1.agent = r.agent) := by
  rcases hq : r.selQ with _ | ⟨a, rest⟩
  · simp [execute_tool, hq, Prod.ext_iff] at h
    simp [h.1.symm, h.2.symm]
  · cases a with
    | ok n o =>
      rcases hg : get_tool_type n with _ | ty <;>
      · simp [execute_tool, hq, hg, Prod.ext_iff] at h
        simp [h.1.symm, h.2.symm]
    | otherError =>
      simp [execute_tool, hq, Prod.ext_iff] at h
      simp [h.1.symm, h.2.symm]
    | noToolCall =>
      rcases rest with _ | ⟨b, rest2⟩
      · simp [execute_tool, hq, Prod.ext_iff] at h
        simp [h.1.symm, h.2.symm]
      · cases b with
        | ok n o =>
          rcases hg : get_tool_type n with _ | ty <;>
          · simp [execute_tool, hq, hg, Prod.ext_iff] at h
            simp [h.1.symm, h.2.symm]
        | noToolCall =>
          simp [execute_tool, hq, Prod.ext_iff] at h
          simp [h.1.symm, h.2.symm]
        | otherError =>
          simp [execute_tool, hq, Prod.ext_iff] at h
          simp [h.1.symm, h.2.symm]

/-- `process_tool_output` never touches `step`; on success it appends exactly
one `Message` to `context`; on failure it changes nothing. -/
lemma process_tool_output_frame {r r1 : RunState} {e1 : Option WorkflowError}
    (h : process_tool_output r = (r1, e1)) :
    r1.agent.step = r.agent.step ∧
    (e1 = none → ∃ m, r1.agent.context = r.agent.context ++ [m]) ∧
    (e1 ≠ none → r1 = r) := by
  rcases hq : r.agent.tool_call_result with _ | res
  · simp [process_tool_output, hq, Prod.ext_iff] at h
    simp [h.1.symm, h.2.symm]
  · rcases hty : res.type <;>
    · simp [process_tool_output, hq, hty, Prod.ext_iff] at h
      simp [h.1.symm, h.2.symm]

/-- `reflect` never touches `step` or `context`. -/
lemma reflect_frame {r r1 : RunState} {e1 : Option WorkflowError}
    (h : reflect r = (r1, e1)) :
    r1.agent.step = r.agent.step ∧ r1.agent.context = r.agent.context := by
  rcases hq : r.reflQ with _ | ⟨a, rest⟩
  · simp [reflect, hq, Prod.ext_iff] at h
    simp [h.1.symm]
  · cases a <;>
    · simp [reflect, hq, Prod.ext_iff] at h
      simp [h.1.symm]

/-- `evaluate_completion` never touches the agent state at all. -/
lemma evaluate_completion_agent {r r1 : RunState} {out : Except WorkflowError Bool}
    (h : evaluate_completion r = (r1, out)) : r1.agent = r.agent := by
  rcases hq : r.judgeQ with _ | ⟨resp, rest⟩
  · simp [evaluate_completion, hq, Prod.ext_iff] at h
    simp [h.1.symm]
  · rcases hc : construct_task_completion resp with e | d
    · simp [evaluate_completion, hq, hc, Prod.ext_iff] at h
      simp [h.1.symm]
    · by_cases hd : d.completed <;> by_cases hs : MAX_STEPS ≤ r.agent.step <;>
      · simp [evaluate_completion, hq, hc, hd, hs, Prod.ext_iff] at h
        simp [h.1.symm]

/-- One graph pass: `step` never decreases, `context` only grows; a pass that
reaches `evaluate_completion` (no exception) has executed exactly one tool
call and appended exactly one `Message`. -/
lemma iterate_frame {r r1 : RunState} {out : Except WorkflowError Bool}
    (h : iterate r = (r1, out)) :
    r.agent.step ≤ r1.agent.step ∧
    (∃ t, r1.agent.context = r.agent.context ++ t) ∧
    (∀ b, out = Except.ok b →
      r1.agent.step = r.agent.step + 1 ∧
      ∃ m, r1.agent.context = r.agent.context ++ [m]) := by
  unfold iterate at h
  rcases h1 : plan_action r with ⟨s1, e1⟩
  rw [h1] at h
  obtain ⟨hp1s, hp1c⟩ := plan_action_frame h1
  cases e1 with
  | some e =>
    simp only [stageThen_some] at h
    injection h with hA hB
    subst hA
    subst hB
    refine ⟨hp1s.symm.le, ⟨[], by simp [hp1c]⟩, ?_⟩
    intro b hb
    simp at hb
  | none =>
    simp only [stageThen_none] at h
    rcases h2 : execute_tool s1 with ⟨s2, e2⟩
    rw [h2] at h
    obtain ⟨hx_c, hx_ok, hx_err⟩ := execute_tool_frame h2
    cases e2 with
    | some e =>
      simp only [stageThen_some] at h
      injection h with hA hB
      subst hA
      subst hB
      have hag := hx_err (by simp)
      refine ⟨?_, ⟨[], ?_⟩, ?_⟩
      · rw [hag, hp1s]
      · simp [hag, hp1c]
      · intro b hb
        simp at hb
    | none =>
      simp only [stageThen_none] at h
      have hstep2 := hx_ok rfl
      rcases h3 : process_tool_output s2 with ⟨s3, e3⟩
      rw [h3] at h
      obtain ⟨hp3s, hp3ok, hp3err⟩ := process_tool_output_frame h3
      cases e3 with
      | some e =>
        simp only [stageThen_some] at h
        injection h with hA hB
        subst hA
        subst hB
        have h32 := hp3err (by simp)
        subst h32
        refine ⟨by omega, ⟨[], by simp [hx_c, hp1c]⟩, ?_⟩
        intro b hb
        simp at hb
      | none =>
        simp only [stageThen_none] at h
        obtain ⟨m, hm⟩ := hp3ok rfl
        rcases h4 : reflect s3 with ⟨s4, e4⟩
        rw [h4] at h
        obtain ⟨h4s, h4c⟩ := reflect_frame h4
        cases e4 with
        | some e =>
          simp only [stageThen_some] at h
          injection h with hA hB
          subst hA
          subst hB
          refine ⟨by omega, ⟨[m], by simp [h4c, hm, hx_c, hp1c]⟩, ?_⟩
          intro b hb
          simp at hb
        | none =>
          simp only [stageThen_none] at h
          have hag := evaluate_completion_agent h
          have hstep : r1.agent.step = r.agent.step + 1 := by
            rw [hag, h4s, hp3s, hstep2, hp1s]
          have hctx : r1.agent.context = r.agent.context ++ [m] := by
            rw [hag, h4c, hm, hx_c, hp1c]
          exact ⟨by omega, ⟨[m], hctx⟩, fun b _ => ⟨hstep, ⟨m, hctx⟩⟩⟩

/-- Run-level invariants of the base loop: `step` never decreases, `context`
only ever grows by appending, and a run that terminates normally has appended
exactly one `Message` per step taken. -/
lemma runLoop_frame : ∀ (n : Nat) (r r' : RunState) (res : Except WorkflowError Unit),
    runLoop n r = (r', res) →
    r.agent.step ≤ r'.agent.step ∧
    (∃ t, r'.agent.context = r.agent.context ++ t) ∧
    (res = Except.ok () →
      r'.agent.context.length + r.agent.step = r.agent.context.length + r'.agent.step) := by
  intro n
  induction n with
  | zero =>
    intro r r' res h
    unfold runLoop at h
    injection h with hA hB
    subst hA
    subst hB
    exact ⟨le_refl _, ⟨[], by simp⟩, by simp⟩
  | succ k ih =>
    intro r r' res h
    unfold runLoop at h
    rcases hi : iterate r with ⟨r1, out⟩
    rw [hi] at h
    obtain ⟨hmono, ⟨t, ht⟩, hok⟩ := iterate_frame hi
    cases out with
    | error e =>
      simp only [loopCont_error] at h
      injection h with hA hB
      subst hA
      subst hB
      exact ⟨hmono, ⟨t, ht⟩, by simp⟩
    | ok b =>
      cases b with
      | true =>
        simp only [loopCont_true] at h
        injection h with hA hB
        subst hA
        subst hB
        obtain ⟨hstep, m, hm⟩ := hok true rfl
        refine ⟨hmono, ⟨t, ht⟩, fun _ => ?_⟩
        rw [hstep, hm]
        simp
        omega
      | false =>
        simp only [loopCont_false] at h
        obtain ⟨hstep, m, hm⟩ := hok false rfl
        obtain ⟨hmono2, ⟨t2, ht2⟩, hcount2⟩ := ih r1 r' res h
        refine ⟨le_trans hmono hmono2, ⟨m :: t2, by rw [ht2, hm]; simp⟩, fun hres => ?_⟩
        have := hcount2 hres
        rw [hm] at this
        simp at this
        omega

end AgentWorkflow

/-! ## The claims -/

/-- C1: "For every workflow variant with declared iteration cap MAX_STEPS = N
(5 for the base workflow, 4 for the code-writer variant, 1 for the web-search
variant), every run in which the completion judge always returns
completed=false performs exactly N tool invocations and then terminates."
The base workflow does perform exactly 5 invocations and terminate.  The
code-writer variant, however, inherits `evaluate_completion`, which reads
`workflow_base.MAX_STEPS = 5` — its declared cap 4 is never read — and in any
case its run raises `KeyError("last_output")` in `process_tool_output` of the
first iteration, after exactly 1 tool invocation; the web-search variant's
run raises `KeyError("web_search")` inside the first `execute_tool`, after 0
completed invocations, because its only tool is not a key of `MAPPING`. -/
theorem C1_iteration_cap_code_bug :
    MAX_STEPS = 5 ∧
    (AgentWorkflow.runLoop 5 baseCoopRun).2 = Except.ok () ∧
    (AgentWorkflow.runLoop 5 baseCoopRun).1.agent.step = 5 ∧
    workflow_coder.MAX_STEPS = 4 ∧
    (CodeWriterExecutorWorkflow.runLoop 4 coderCoopRun).2 =
      Except.error (WorkflowError.keyError "last_output") ∧
    (CodeWriterExecutorWorkflow.runLoop 4 coderCoopRun).1.agent.step = 1 ∧
    workflow_web_search.MAX_STEPS = 1 ∧
    (DeepWebSearchWorkflow.runLoop 1 webCoopRun).2 =
      Except.error (WorkflowError.keyError WEB_SEARCH_TOOL_NAME) ∧
    (DeepWebSearchWorkflow.runLoop 1 webCoopRun).1.agent.step = 0 :=
  ⟨rfl, rfl, rfl, rfl, rfl, rfl, rfl, rfl, rfl⟩

/-- C2: "For every successful tool invocation whose capability's registered
output kind is TEXT [STRING], the iteration appends exactly one Message to
context whose content equals the tool's output payload and whose link is the
empty string; this holds in every workflow variant."  It holds in the base
workflow, but the code-writer variant's `process_tool_output` reads
`state["last_output"]` — a key neither declared in `AgentState` nor written by
any node (`execute_tool` writes `tool_call_result`) — so on the very same
state it raises `KeyError` and appends nothing. -/
theorem C2_text_kind_message_code_bug :
    AgentWorkflow.process_tool_output stringResultRun =
      ({ stringResultRun with
          agent := { stringResultRun.agent with
            context := stringResultRun.agent.context ++
              [{ provided_by := "write_code", link := "", content := "payload",
                 metadata := [] }] } }, none) ∧
    CodeWriterExecutorWorkflow.process_tool_output stringResultRun =
      (stringResultRun, some (WorkflowError.keyError "last_output")) ∧
    stringResultRun.agent.tool_call_result =
      some ⟨"write_code", ToolOutputType.STRING, "payload"⟩ :=
  ⟨rfl, rfl, rfl⟩

/-- C3: "For every successful tool invocation whose capability's registered
output kind is FILE, the iteration appends exactly one Message whose link is
non-empty, and reading back the spillover reference (the file at link)
returns content equal to the original tool output payload."  Confirmed for
`AgentWorkflow.process_tool_output`: the appended Message's `link` is the
fresh spillover file name (non-empty) and reading it back from the resulting
store returns the payload. -/
theorem C3_file_kind_spillover_roundtrip (r : RunState) (res : ExecuteToolOutput)
    (h : r.agent.tool_call_result = some res)
    (hty : res.type = ToolOutputType.FILE) :
    AgentWorkflow.process_tool_output r =
      ({ r with
          store := ⟨(freshName r.store, res.output) :: r.store.files⟩
          agent := { r.agent with
            context := r.agent.context ++
              [{ provided_by := res.name, link := freshName r.store,
                 content := "Output of " ++ res.name ++ " tool is stored in " ++
                   freshName r.store ++ ".",
                 metadata := [] }] } }, none) ∧
    freshName r.store ≠ "" ∧
    SpilloverStore.read ⟨(freshName r.store, res.output) :: r.store.files⟩
      (freshName r.store) = some res.output := by
  obtain ⟨resn, resty, reso⟩ := res
  dsimp only at hty
  subst hty
  refine ⟨?_, ?_, ?_⟩
  · unfold AgentWorkflow.process_tool_output
    rw [h]
    rfl
  · intro hc
    have hlen : ("/tmp/tmp" ++ toString r.store.files.length).length =
        String.length "" := congrArg String.length hc
    rw [String.length_append] at hlen
    have h8 : "/tmp/tmp".length = 8 := rfl
    have h0 : String.length "" = 0 := rfl
    omega
  · simp [SpilloverStore.read, List.lookup]

/-- Witness for C3 at the concrete FILE-kind run `fileResultRun`. -/
theorem C3_file_kind_spillover_roundtrip_witness :
    AgentWorkflow.process_tool_output fileResultRun =
      ({ fileResultRun with
          store := ⟨(freshName fileResultRun.store, "x") ::
            fileResultRun.store.files⟩
          agent := { fileResultRun.agent with
            context := fileResultRun.agent.context ++
              [{ provided_by := "search", link := freshName fileResultRun.store,
                 content := "Output of " ++ "search" ++ " tool is stored in " ++
                   freshName fileResultRun.store ++ ".",
                 metadata := [] }] } }, none) ∧
    freshName fileResultRun.store ≠ "" ∧
    SpilloverStore.read ⟨(freshName fileResultRun.store, "x") ::
        fileResultRun.store.files⟩ (freshName fileResultRun.store) = some "x" :=
  C3_file_kind_spillover_roundtrip fileResultRun
    ⟨"search", ToolOutputType.FILE, "x"⟩ rfl rfl

/-- C4: "In every run, step starts at 0 and is incremented by exactly 1 for
each successfully executed tool call, and by 0 for any iteration that fails at
planning or exhausts the tool-selection retry; hence step is monotonically
non-decreasing across the run."  Confirmed: `__init__` sets `step = 0`; a
successful `execute_tool` adds exactly 1; any failing `execute_tool` (which
includes the exhausted selection retry) leaves the agent state untouched;
`plan_action` never changes `step` (so a planning failure adds 0); and `step`
is monotone over the whole loop, whatever the outcome. -/
theorem C4_step_counter_discipline :
    (∀ (task : String) (ctx : List Message), (init_state task ctx).step = 0) ∧
    (∀ r r1 : RunState, AgentWorkflow.execute_tool r = (r1, none) →
      r1.agent.step = r.agent.step + 1) ∧
    (∀ (r r1 : RunState) (e : WorkflowError),
      AgentWorkflow.execute_tool r = (r1, some e) → r1.agent = r.agent) ∧
    (∀ (r r1 : RunState) (e1 : Option WorkflowError),
      AgentWorkflow.plan_action r = (r1, e1) → r1.agent.step = r.agent.step) ∧
    (∀ (n : Nat) (r r' : RunState) (res : Except WorkflowError Unit),
      AgentWorkflow.runLoop n r = (r', res) → r.agent.step ≤ r'.agent.step) := by
  refine ⟨fun _ _ => rfl, ?_, ?_, ?_, ?_⟩
  · intro r r1 hx
    exact (AgentWorkflow.execute_tool_frame hx).2.1 rfl
  · intro r r1 e hx
    exact (AgentWorkflow.execute_tool_frame hx).2.2 (by simp)
  · intro r r1 e1 hp
    exact (AgentWorkflow.plan_action_frame hp).1
  · intro n r r' res hr
    exact (AgentWorkflow.runLoop_frame n r r' res hr).1

/-- Witness for C4 at concrete runs: a successful selection (`baseCoopRun`),
an exhausted selection (`doubleNoSelRun`), and a planning call. -/
theorem C4_step_counter_discipline_witness :
    (init_state "t" []).step = 0 ∧
    (AgentWorkflow.execute_tool baseCoopRun).1.agent.step =
      baseCoopRun.agent.step + 1 ∧
    (AgentWorkflow.execute_tool doubleNoSelRun).1.agent =
      doubleNoSelRun.agent ∧
    (AgentWorkflow.plan_action baseCoopRun).1.agent.step =
      baseCoopRun.agent.step ∧
    baseCoopRun.agent.step ≤ (AgentWorkflow.runLoop 5 baseCoopRun).1.agent.step :=
  ⟨C4_step_counter_discipline.1 "t" [],
   C4_step_counter_discipline.2.1 baseCoopRun
     (AgentWorkflow.execute_tool baseCoopRun).1 rfl,
   C4_step_counter_discipline.2.2.1 doubleNoSelRun
     (AgentWorkflow.execute_tool doubleNoSelRun).1 WorkflowError.noToolCalled rfl,
   C4_step_counter_discipline.2.2.2.1 baseCoopRun
     (AgentWorkflow.plan_action baseCoopRun).1
     (AgentWorkflow.plan_action baseCoopRun).2 rfl,
   C4_step_counter_discipline.2.2.2.2 5 baseCoopRun
     (AgentWorkflow.runLoop 5 baseCoopRun).1
     (AgentWorkflow.runLoop 5 baseCoopRun).2 rfl⟩

/-- C5: "In every run, context is append-only: after k successful iterations
its length equals the initial length plus k, and every entry already appended
is never mutated or removed by any later stage."  Confirmed for the base
loop: whatever the outcome, the initial context is preserved unchanged as a
prefix; and on normal termination the growth of `context` equals the growth
of `step`, i.e. one appended `Message` per successful iteration. -/
theorem C5_context_append_only :
    (∀ (n : Nat) (r r' : RunState) (res : Except WorkflowError Unit),
      AgentWorkflow.runLoop n r = (r', res) →
      r'.agent.context.take r.agent.context.length = r.agent.context) ∧
    (∀ (n : Nat) (r r' : RunState),
      AgentWorkflow.runLoop n r = (r', Except.ok ()) →
      r'.agent.context.length + r.agent.step =
        r.agent.context.length + r'.agent.step) := by
  constructor
  · intro n r r' res hr
    obtain ⟨-, ⟨t, ht⟩, -⟩ := AgentWorkflow.runLoop_frame n r r' res hr
    rw [ht]
    simp
  · intro n r r' hr
    exact (AgentWorkflow.runLoop_frame n r r' _ hr).2.2 rfl

/-- Witness for C5 at a one-iteration run terminated by the judge. -/
theorem C5_context_append_only_witness :
    (AgentWorkflow.runLoop 1 judgeTrueRun).1.agent.context.take
        judgeTrueRun.agent.context.length = judgeTrueRun.agent.context ∧
    (AgentWorkflow.runLoop 1 judgeTrueRun).1.agent.context.length +
        judgeTrueRun.agent.step =
      judgeTrueRun.agent.context.length +
        (AgentWorkflow.runLoop 1 judgeTrueRun).1.agent.step :=
  ⟨C5_context_append_only.1 1 judgeTrueRun
     (AgentWorkflow.runLoop 1 judgeTrueRun).1
     (AgentWorkflow.runLoop 1 judgeTrueRun).2 rfl,
   C5_context_append_only.2 1 judgeTrueRun
     (AgentWorkflow.runLoop 1 judgeTrueRun).1 rfl⟩

/-- C6: "If the tool-selection oracle signals that no capability was selected,
the invocation stage re-issues the request exactly one more time with a
strengthened instruction; if the second attempt also yields no selection, the
run aborts with a fatal error and step remains unchanged from before that
iteration."  Confirmed: with two consecutive no-selection responses,
`execute_tool` issues exactly two prompts — the second being the first with
`RETRY_SUFFIX` appended — consumes exactly those two responses, raises
`noToolCalled`, and leaves the agent state (in particular `step`) untouched;
the whole run unwinds with that error. -/
theorem C6_no_selection_retry_policy (r : RunState) (q : List SelResult)
    (h : r.selQ = SelResult.noToolCall :: SelResult.noToolCall :: q) :
    AgentWorkflow.execute_tool r =
      ({ r with
          selQ := q
          prompts := r.prompts ++
            [execute_tool_prompt r.capability r.agent,
             execute_tool_prompt r.capability r.agent ++ RETRY_SUFFIX] },
       some WorkflowError.noToolCalled) ∧
    (∀ (t : String) (pq : List (Except WorkflowError String)) (n : Nat),
      r.planQ = Except.ok t :: pq →
      (AgentWorkflow.runLoop (n + 1) r).2 =
        Except.error WorkflowError.noToolCalled ∧
      (AgentWorkflow.runLoop (n + 1) r).1.agent.step = r.agent.step) := by
  have hx : ∀ rr : RunState,
      rr.selQ = SelResult.noToolCall :: SelResult.noToolCall :: q →
      AgentWorkflow.execute_tool rr =
        ({ rr with
            selQ := q
            prompts := rr.prompts ++
              [execute_tool_prompt rr.capability rr.agent,
               execute_tool_prompt rr.capability rr.agent ++ RETRY_SUFFIX] },
         some WorkflowError.noToolCalled) := by
    intro rr hh
    unfold AgentWorkflow.execute_tool
    rw [hh]
  refine ⟨hx r h, ?_⟩
  intro t pq n hpq
  have hp : AgentWorkflow.plan_action r =
      ({ r with
          planQ := pq
          agent := { r.agent with plan := some t.trim } }, none) := by
    unfold AgentWorkflow.plan_action
    rw [hpq]
  have hx1 := hx { r with
      planQ := pq
      agent := { r.agent with plan := some t.trim } } h
  have hi : AgentWorkflow.iterate r =
      ({ r with
          planQ := pq
          selQ := q
          prompts := r.prompts ++
            [execute_tool_prompt r.capability
               { r.agent with plan := some t.trim },
             execute_tool_prompt r.capability
               { r.agent with plan := some t.trim } ++ RETRY_SUFFIX]
          agent := { r.agent with plan := some t.trim } },
       Except.error WorkflowError.noToolCalled) := by
    unfold AgentWorkflow.iterate
    rw [hp]
    simp only [stageThen_none]
    rw [hx1]
    simp only [stageThen_some]
  have hrun : AgentWorkflow.runLoop (n + 1) r =
      ({ r with
          planQ := pq
          selQ := q
          prompts := r.prompts ++
            [execute_tool_prompt r.capability
               { r.agent with plan := some t.trim },
             execute_tool_prompt r.capability
               { r.agent with plan := some t.trim } ++ RETRY_SUFFIX]
          agent := { r.agent with plan := some t.trim } },
       Except.error WorkflowError.noToolCalled) := by
    unfold AgentWorkflow.runLoop
    rw [hi]
    simp only [loopCont_error]
  rw [hrun]
  exact ⟨rfl, rfl⟩

/-- Witness for C6 at the concrete run `doubleNoSelRun`. -/
theorem C6_no_selection_retry_policy_witness :
    AgentWorkflow.execute_tool doubleNoSelRun =
      ({ doubleNoSelRun with
          selQ := []
          prompts := doubleNoSelRun.prompts ++
            [execute_tool_prompt doubleNoSelRun.capability doubleNoSelRun.agent,
             execute_tool_prompt doubleNoSelRun.capability
               doubleNoSelRun.agent ++ RETRY_SUFFIX] },
       some WorkflowError.noToolCalled) ∧
    (AgentWorkflow.runLoop 1 doubleNoSelRun).2 =
      Except.error WorkflowError.noToolCalled ∧
    (AgentWorkflow.runLoop 1 doubleNoSelRun).1.agent.step =
      doubleNoSelRun.agent.step :=
  ⟨(C6_no_selection_retry_policy doubleNoSelRun [] rfl).1,
   (C6_no_selection_retry_policy doubleNoSelRun [] rfl).2 "p1" [] 0 rfl⟩

/-- C7: "If during the planning stage the oracle is unreachable or returns no
text, the run aborts with a fatal workflow error surfaced to the caller
unmodified, and no retry is attempted at the planning stage."  Confirmed: a
failing first planning response makes `plan_action` surface exactly that
error after consuming exactly one response, and the whole run unwinds with it
— the final run state shows that nothing else was consumed or changed (no
retry anywhere). -/
theorem C7_planning_failure_fatal_no_retry (r : RunState) (e : WorkflowError)
    (q : List (Except WorkflowError String)) (n : Nat)
    (h : r.planQ = Except.error e :: q) :
    AgentWorkflow.plan_action r = ({ r with planQ := q }, some e) ∧
    AgentWorkflow.runLoop (n + 1) r = ({ r with planQ := q }, Except.error e) := by
  have hp : AgentWorkflow.plan_action r = ({ r with planQ := q }, some e) := by
    unfold AgentWorkflow.plan_action
    rw [h]
  refine ⟨hp, ?_⟩
  have hi : AgentWorkflow.iterate r = ({ r with planQ := q }, Except.error e) := by
    unfold AgentWorkflow.iterate
    rw [hp]
    simp only [stageThen_some]
  unfold AgentWorkflow.runLoop
  rw [hi]
  simp only [loopCont_error]

/-- Witness for C7 at the concrete run `planFailRun`. -/
theorem C7_planning_failure_fatal_no_retry_witness :
    AgentWorkflow.plan_action planFailRun =
      ({ planFailRun with planQ := [] }, some WorkflowError.oracleUnreachable) ∧
    AgentWorkflow.runLoop 1 planFailRun =
      ({ planFailRun with planQ := [] },
       Except.error WorkflowError.oracleUnreachable) :=
  C7_planning_failure_fatal_no_retry planFailRun
    WorkflowError.oracleUnreachable [] 0 rfl

/-- C8 (counterexample): the claim says the evaluator raises whenever the
judge's response cannot be parsed into the expected `{completed, summary}`
structure.  But `"{}"` is valid JSON with neither key, and
`construct_task_completion` silently returns `completed = false` with the
`"did-not-parse"` default summary instead of raising. -/
theorem C8_judge_silent_default_counterexample :
    construct_task_completion "{}" =
      Except.ok { completed := false, summary := "did-not-parse" } ∧
    jsonLoads (extractResponseText "{}") = some [] :=
  ⟨rfl, rfl⟩

/-- C8 (amended): the evaluator raises a hard error exactly when the judge's
response is not decodable JSON (`json.loads` raises); a response that is
valid JSON but lacks the expected keys is silently mapped to
`completed = false`, `summary = "did-not-parse"`. -/
theorem C8_invalid_json_raises (s : String)
    (h : jsonLoads (extractResponseText s) = none) :
    construct_task_completion s = Except.error WorkflowError.jsonDecodeError := by
  unfold construct_task_completion
  rw [h]

/-- Witness for the amended C8 at the concrete response `"not json"`. -/
theorem C8_invalid_json_raises_witness :
    construct_task_completion "not json" =
      Except.error WorkflowError.jsonDecodeError :=
  C8_invalid_json_raises "not json" rfl

/-- C9: "The reflection stage writes its output only to the state's
reflection field and never appends anything to context; and the optional
progress summary is never used as an input to the termination decision, which
depends only on the judge's verdict and the step cap."  Confirmed: a
successful `reflect` changes exactly the `reflection` field (and consumes its
oracle response); and the `"end"`/`"continue"` outcome of
`evaluate_completion` is invariant under the `answers` (progress summary)
field. -/
theorem C9_reflection_frame_and_termination_inputs :
    (∀ (r : RunState) (t : String) (q : List (Except WorkflowError String)),
      r.reflQ = Except.ok t :: q →
      AgentWorkflow.reflect r =
        ({ r with
            reflQ := q
            agent := { r.agent with reflection := some t.trim } }, none)) ∧
    (∀ (r : RunState) (a : Option ShortAnswer),
      (AgentWorkflow.evaluate_completion
        { r with agent := { r.agent with answers := a } }).2 =
      (AgentWorkflow.evaluate_completion r).2) := by
  constructor
  · intro r t q h
    unfold AgentWorkflow.reflect
    rw [h]
  · intro r a
    rcases hq : r.judgeQ with _ | ⟨resp, rest⟩
    · simp [AgentWorkflow.evaluate_completion, hq]
    · rcases hc : construct_task_completion resp with e | d
      · simp [AgentWorkflow.evaluate_completion, hq, hc]
      · by_cases hd : d.completed
        · simp [AgentWorkflow.evaluate_completion, hq, hc, hd]
        · by_cases hs : MAX_STEPS ≤ r.agent.step
          · simp [AgentWorkflow.evaluate_completion, hq, hc, hd, hs]
          · simp [AgentWorkflow.evaluate_completion, hq, hc, hd, hs]

/-- Witness for C9: a concrete reflection write, and the concrete termination
verdict unchanged by a non-trivial progress summary. -/
theorem C9_reflection_frame_and_termination_inputs_witness :
    AgentWorkflow.reflect reflectDemoRun =
      ({ reflectDemoRun with
          reflQ := []
          agent := { reflectDemoRun.agent with
            reflection := some ("some reflection".trim) } }, none) ∧
    (AgentWorkflow.evaluate_completion
      { judgeTrueRun with agent := { judgeTrueRun.agent with
          answers := some { answered := true, answer := "a",
                            clarification := "c" } } }).2 =
    (AgentWorkflow.evaluate_completion judgeTrueRun).2 :=
  ⟨C9_reflection_frame_and_termination_inputs.1 reflectDemoRun
     "some reflection" [] rfl,
   C9_reflection_frame_and_termination_inputs.2 judgeTrueRun
     (some { answered := true, answer := "a", clarification := "c" })⟩

/-- C10: "The registry lookup get_tool_type is defined only for tool names
that are keys of the static MAPPING (the coding and summary tools): for every
other tool name, including the web-search tool used by the
DeepWebSearchWorkflow, it raises KeyError, so execute_tool aborts before
recording a tool_call_result or incrementing step when the oracle selects an
unmapped capability."  Confirmed: `MAPPING` has exactly the four
coding/summary keys, `web_search` is not among them, and selecting an
unmapped capability makes `execute_tool` raise `KeyError` with the whole
agent state — `tool_call_result` and `step` included — unchanged. -/
theorem C10_unmapped_capability_aborts (r : RunState)
    (tool_name toolOut : String) (q : List SelResult)
    (hsel : r.selQ = SelResult.ok tool_name toolOut :: q)
    (hmap : get_tool_type tool_name = none) :
    MAPPING.map Prod.fst =
      ["do_table_eda", "write_code", "execute_code", "task_completed"] ∧
    get_tool_type WEB_SEARCH_TOOL_NAME = none ∧
    DeepWebSearchWorkflow.tools = [WEB_SEARCH_TOOL_NAME] ∧
    AgentWorkflow.execute_tool r =
      ({ r with
          selQ := q
          prompts := r.prompts ++ [execute_tool_prompt r.capability r.agent] },
       some (WorkflowError.keyError tool_name)) ∧
    (AgentWorkflow.execute_tool r).1.agent = r.agent ∧
    (AgentWorkflow.execute_tool r).1.agent.tool_call_result =
      r.agent.tool_call_result ∧
    (AgentWorkflow.execute_tool r).1.agent.step = r.agent.step := by
  have h4 : AgentWorkflow.execute_tool r =
      ({ r with
          selQ := q
          prompts := r.prompts ++ [execute_tool_prompt r.capability r.agent] },
       some (WorkflowError.keyError tool_name)) := by
    simp only [AgentWorkflow.execute_tool, hsel, hmap]
  refine ⟨rfl, rfl, rfl, h4, ?_, ?_, ?_⟩ <;> rw [h4]

/-- Witness for C10 at the web-search variant's concrete run `webCoopRun`,
whose oracle selects `web_search`. -/
theorem C10_unmapped_capability_aborts_witness :
    get_tool_type WEB_SEARCH_TOOL_NAME = none ∧
    AgentWorkflow.execute_tool webCoopRun =
      ({ webCoopRun with
          selQ := []
          prompts := webCoopRun.prompts ++
            [execute_tool_prompt webCoopRun.capability webCoopRun.agent] },
       some (WorkflowError.keyError WEB_SEARCH_TOOL_NAME)) ∧
    (AgentWorkflow.execute_tool webCoopRun).1.agent.step =
      webCoopRun.agent.step :=
  ⟨(C10_unmapped_capability_aborts webCoopRun WEB_SEARCH_TOOL_NAME "o1" []
      rfl rfl).2.1,
   (C10_unmapped_capability_aborts webCoopRun WEB_SEARCH_TOOL_NAME "o1" []
      rfl rfl).2.2.2.1,
   (C10_unmapped_capability_aborts webCoopRun WEB_SEARCH_TOOL_NAME "o1" []
      rfl rfl).2.2.2.2.2.2⟩
